import Mathlib

/-!
Shallow embedding of the request-admission pipeline of the phone-lookup
gateway (pages/api/lookup.js, lib/db.js, lib/auth.js,
pages/api/admin/revoke-key.js).

Timestamps are modelled as `Int` seconds since the epoch; calendar days are
the `String` produced by `toISOString().split('T')[0]` and are passed in as
part of the environment (the JS code derives them from the same clock).
-/

namespace Gateway

/-- A row of the `api_keys` table (lib/db.js lines 14-27). -/
structure ApiKeyRow where
  id : Nat
  key_hash : String
  user_id : Nat
  expires_at : Option Int
  is_paused : Bool
  daily_limit : Int
  daily_used : Int
  last_reset_date : String
deriving Repr, DecidableEq

/-- A row of the `users` table (lib/db.js lines 30-39); only the columns the
gateway path reads. -/
structure UserRow where
  id : Nat
  username : String
  is_active : Bool
deriving Repr, DecidableEq

/-- A row of the `api_usage_logs` table (lib/db.js lines 42-53). -/
structure UsageLog where
  api_key_id : Nat
  mobile_number : String
  response_time : Int
  status : String
  ip_address : String
  user_agent : Option String
  created_at : Int
deriving Repr, DecidableEq

/-- The relational store, plus `logFails`: whether an INSERT into
`api_usage_logs` raises (models a store failure of the usage write only). -/
structure DB where
  api_keys : List ApiKeyRow
  users : List UserRow
  usage_logs : List UsageLog
  logFails : Bool
deriving Repr, DecidableEq

/-- The joined record returned by `getApiKey` (lib/db.js lines 103-120):
key columns plus the owning user's `username`. -/
structure KeyJoin where
  id : Nat
  user_id : Nat
  expires_at : Option Int
  is_paused : Bool
  daily_limit : Int
  daily_used : Int
  last_reset_date : String
  username : String
deriving Repr, DecidableEq

/-- lib/db.js lines 103-120: `SELECT ... FROM api_keys ak JOIN users u ON
ak.user_id = u.id WHERE ak.key_hash = ${keyHash}`, returning `rows[0]`.
The join requires only that the owning user row exists; no condition on
`u.is_active` appears in the query. -/
def getApiKey (keyHash : String) (db : DB) : Option KeyJoin :=
  (db.api_keys.find? fun k =>
      decide (k.key_hash = keyHash) && db.users.any fun u => decide (u.id = k.user_id)).bind
    fun k =>
      (db.users.find? fun u => decide (u.id = k.user_id)).map fun u =>
        { id := k.id, user_id := k.user_id, expires_at := k.expires_at,
          is_paused := k.is_paused, daily_limit := k.daily_limit,
          daily_used := k.daily_used, last_reset_date := k.last_reset_date,
          username := u.username }

/-- The pure update applied to the key list by `incrementApiUsage` when the
stored `last_reset_date` differs from today (lib/db.js lines 132-136). -/
def resetKeys (apiKeyId : Nat) (today : String) (ks : List ApiKeyRow) : List ApiKeyRow :=
  ks.map fun r =>
    if r.id = apiKeyId then { r with daily_used := 1, last_reset_date := today } else r

/-- The pure update applied by `incrementApiUsage` on the same-day branch
(lib/db.js lines 138-142). -/
def bumpKeys (apiKeyId : Nat) (ks : List ApiKeyRow) : List ApiKeyRow :=
  ks.map fun r =>
    if r.id = apiKeyId then { r with daily_used := r.daily_used + 1 } else r

/-- lib/db.js lines 125-144: read `last_reset_date` for the key; if
`rows[0]?.last_reset_date !== today` (also true when the row is absent),
set `daily_used = 1, last_reset_date = today`; else `daily_used += 1`. -/
def incrementApiUsage (apiKeyId : Nat) (today : String) (db : DB) : DB :=
  let lastReset : Option String :=
    (db.api_keys.find? fun k => decide (k.id = apiKeyId)).map (fun k => k.last_reset_date)
  if lastReset = some today then
    { db with api_keys := bumpKeys apiKeyId db.api_keys }
  else
    { db with api_keys := resetKeys apiKeyId today db.api_keys }

/-- lib/db.js lines 149-161: INSERT one row into `api_usage_logs`. The
`Except.error` case models the INSERT itself failing in the store. -/
def logUsage (apiKeyId : Nat) (mobileNumber : String) (responseTime : Int)
    (status : String) (ip : String) (userAgent : Option String) (now : Int)
    (db : DB) : Except String DB :=
  if db.logFails then
    Except.error "usage insert failed"
  else
    Except.ok { db with usage_logs := db.usage_logs ++
      [{ api_key_id := apiKeyId, mobile_number := mobileNumber,
         response_time := responseTime, status := status, ip_address := ip,
         user_agent := userAgent, created_at := now }] }

/-- Requests from one IP counted by the limiter: usage-log rows with this
`ip_address` and `created_at > NOW() - INTERVAL '1 hour'`
(pages/api/lookup.js lines 15-16) — a rolling one-hour lookback. -/
def rateCount (ip : String) (now : Int) (logs : List UsageLog) : Nat :=
  logs.countP fun l => decide (l.ip_address = ip) && decide (l.created_at > now - 3600)

/-- The fixed calendar-hour bucket of a timestamp (used only to state what
the spec asserts about the limiter; the code itself uses `rateCount`). -/
def hourBucket (t : Int) : Int := t / 3600

/-- pages/api/lookup.js lines 10-29 (`checkRateLimit`): first the IP count
over the last hour (throws at `>= 100`), then the key's stored
`daily_used >= daily_limit` (throws quota). No day-rollover is applied to
`daily_used` before the comparison. A missing key row would make
`keyInfo.rows[0].daily_used` a TypeError. The locals `today`/`ipKey`
computed at lines 11-14 are never used and are not modelled. -/
def checkRateLimit (apiKeyId : Nat) (ip : String) (now : Int) (db : DB) :
    Except String Unit :=
  if rateCount ip now db.usage_logs ≥ 100 then
    Except.error "Rate limit exceeded. Too many requests from this IP."
  else
    match db.api_keys.find? fun k => decide (k.id = apiKeyId) with
    | none => Except.error "TypeError: Cannot read properties of undefined"
    | some k =>
        if k.daily_used ≥ k.daily_limit then
          Except.error "Daily quota exceeded for this API key."
        else
          Except.ok ()

/-- pages/api/lookup.js lines 34-40: `/^[6-9]\d{9}$/.test(number)`. -/
def validMobile (s : String) : Bool :=
  match s.data with
  | c :: rest => (c = '6' || c = '7' || c = '8' || c = '9')
      && rest.length = 9 && rest.all fun d => '0' ≤ d && d ≤ '9'
  | [] => false

/-- lib/auth.js lines 39-44: sha256 hex digest of the presented key. The
digest itself is opaque to every claim; it is modelled as an injective
executable tagging function standing in for the hash. -/
def hashApiKey (apiKey : String) : String :=
  String.append "sha256:" apiKey

/-- A scalar JSON value inside an upstream entry. Values of object or array
type inside an entry are not modelled; no claim depends on them. -/
inductive JVal where
  | null
  | bool (b : Bool)
  | num (n : Int)
  | str (s : String)
deriving Repr, DecidableEq

/-- JavaScript truthiness of a scalar (drives each `x || y` in the
normalization at pages/api/lookup.js lines 140-148). -/
def jvTruthy : JVal → Bool
  | JVal.null => false
  | JVal.bool b => b
  | JVal.num n => n != 0
  | JVal.str s => s != ""

/-- `a || b` on scalars. -/
def jvOr (a b : JVal) : JVal := if jvTruthy a then a else b

/-- One element of the upstream `data` array, as parsed JSON.
`null` is a JSON null (property access on it throws a TypeError);
`scalar` is a number/string/boolean (property access yields `undefined`);
`obj` is an object with scalar-valued fields. -/
inductive Entry where
  | null
  | scalar
  | obj (fields : List (String × JVal))
deriving Repr, DecidableEq

/-- `item.f` on an object entry: the field's value, or `undefined` when the
field is absent — `undefined` and JSON `null` coincide for every use the
code makes of the value (both are falsy), so both are `JVal.null`. -/
def entryGet (fields : List (String × JVal)) (f : String) : JVal :=
  ((fields.find? fun p => decide (p.1 = f)).map fun p => p.2).getD JVal.null

/-- The parsed body of a 2xx upstream reply, classified by the shape check
at pages/api/lookup.js line 123:
`nonObj` fails `!baseResponse || typeof baseResponse !== 'object'`;
`objNoData` is an object (or array) failing
`!baseResponse.data || !Array.isArray(baseResponse.data)`;
`objData` is an object whose `data` field is an array of entries. -/
inductive UpBody where
  | nonObj
  | objNoData
  | objData (entries : List Entry)
deriving Repr, DecidableEq

/-- Outcome of the axios call (pages/api/lookup.js lines 112-118): `fail`
is a timeout, network error or non-2xx status (axios throws); `ok` is a
2xx reply carrying its parsed body. -/
inductive Upstream where
  | fail
  | ok (body : UpBody)
deriving Repr, DecidableEq

/-- The shape validation at pages/api/lookup.js line 123. -/
def validShape : UpBody → Bool
  | UpBody.objData _ => true
  | _ => false

/-- One normalized output item (pages/api/lookup.js lines 140-148). -/
structure CleanedItem where
  name : JVal
  fname : JVal
  mobile : JVal
  alt : JVal
  address : JVal
  circle : JVal
  id : JVal
deriving Repr, DecidableEq

/-- The projection at pages/api/lookup.js lines 140-148 applied to one
entry. A `null` entry makes the property reads throw a TypeError (the map
runs outside the inner try, so that error lands in the outer catch). -/
def cleanItem (number : String) : Entry → Except String CleanedItem
  | Entry.null => Except.error "TypeError: Cannot read properties of null"
  | Entry.scalar => Except.ok
      { name := JVal.str "N/A", fname := JVal.str "N/A",
        mobile := JVal.str number, alt := JVal.str "N/A",
        address := JVal.str "N/A", circle := JVal.str "N/A",
        id := JVal.str "N/A" }
  | Entry.obj fs => Except.ok
      { name := jvOr (entryGet fs "name") (JVal.str "N/A"),
        fname := jvOr (entryGet fs "fname") (JVal.str "N/A"),
        mobile := jvOr (entryGet fs "mobile") (JVal.str number),
        alt := jvOr (entryGet fs "alt") (JVal.str "N/A"),
        address := jvOr (entryGet fs "address") (JVal.str "N/A"),
        circle := jvOr (entryGet fs "circle") (JVal.str "N/A"),
        id := jvOr (entryGet fs "id") (JVal.str "N/A") }

/-- `baseResponse.data.map(item => ...)` at pages/api/lookup.js line 140:
the projection applied in order, the first TypeError aborting the map. -/
def mapCleaned (n : String) : List Entry → Except String (List CleanedItem)
  | [] => Except.ok []
  | e :: es =>
      match cleanItem n e with
      | Except.error msg => Except.error msg
      | Except.ok c =>
          match mapCleaned n es with
          | Except.error msg => Except.error msg
          | Except.ok cs => Except.ok (c :: cs)

/-- Total version of `cleanItem` on non-null entries, used to state what
the success path produces. -/
def cleanItemOk (number : String) : Entry → CleanedItem
  | Entry.null =>
      { name := JVal.null, fname := JVal.null, mobile := JVal.null,
        alt := JVal.null, address := JVal.null, circle := JVal.null,
        id := JVal.null }
  | Entry.scalar =>
      { name := JVal.str "N/A", fname := JVal.str "N/A",
        mobile := JVal.str number, alt := JVal.str "N/A",
        address := JVal.str "N/A", circle := JVal.str "N/A",
        id := JVal.str "N/A" }
  | Entry.obj fs =>
      { name := jvOr (entryGet fs "name") (JVal.str "N/A"),
        fname := jvOr (entryGet fs "fname") (JVal.str "N/A"),
        mobile := jvOr (entryGet fs "mobile") (JVal.str number),
        alt := jvOr (entryGet fs "alt") (JVal.str "N/A"),
        address := jvOr (entryGet fs "address") (JVal.str "N/A"),
        circle := jvOr (entryGet fs "circle") (JVal.str "N/A"),
        id := jvOr (entryGet fs "id") (JVal.str "N/A") }

/-- The inbound HTTP request as the handler reads it: the method, the two
query parameters, the two places the client IP can come from, and the
`user-agent` header. An absent parameter is `none`. -/
structure Request where
  method : String
  key : Option String
  number : Option String
  xForwardedFor : Option String
  remoteAddress : Option String
  userAgent : Option String
deriving Repr, DecidableEq

/-- JS truthiness of an optional string (`!key` at line 65 is true for a
missing parameter and for the empty string). -/
def strTruthy : Option String → Bool
  | none => false
  | some s => s != ""

/-- pages/api/lookup.js line 102:
`req.headers['x-forwarded-for'] || req.connection.remoteAddress || 'unknown'`. -/
def clientIp (req : Request) : String :=
  if strTruthy req.xForwardedFor then req.xForwardedFor.getD ""
  else if strTruthy req.remoteAddress then req.remoteAddress.getD ""
  else "unknown"

/-- The clock and the upstream behaviour for one request. `now` is the
second count of the single wall clock the JS code reads; `today` its
calendar day string; `nowIso` its ISO rendering; `elapsed` the duration of
the upstream call (`Date.now() - startTime`). -/
structure Env where
  now : Int
  today : String
  nowIso : String
  elapsed : Int
  upstream : Upstream
deriving Repr, DecidableEq

/-- A response body sent by the handler. -/
inductive Body where
  | empty
  | err (msg : String)
  | errAllowed (msg allowed : String)
  | errRequired (msg required : String)
  | errRetry (msg : String) (retryAfter : Int)
  | ok (data : List CleanedItem) (query : String) (results : Nat)
      (processed_at : String)
deriving Repr, DecidableEq

/-- What the handler does at its boundary: send a status and body, or throw
out of the function (an unhandled error the surrounding framework turns
into a generic 500). -/
inductive Outcome where
  | resp (status : Nat) (body : Body)
  | crash (msg : String)
deriving Repr, DecidableEq

/-- Pipeline steps observed in order, for ordering claims. -/
inductive Event where
  | hashKey
  | keyLookup
  | rateCheck
  | upstreamCall
  | quotaIncrement
  | usageWrite
deriving Repr, DecidableEq

/-- Result of one handler run: the boundary outcome, the store as left
behind, and the steps taken. -/
structure HResult where
  outcome : Outcome
  db : DB
  events : List Event
deriving Repr, DecidableEq

/-- Does the character list start with the second list? -/
def headMatches : List Char → List Char → Bool
  | _, [] => true
  | [], _ :: _ => false
  | c :: cs, d :: ds => (c = d) && headMatches cs ds

/-- Does the character list contain the second list as a contiguous run? -/
def hasSub : List Char → List Char → Bool
  | [], needle => needle.isEmpty
  | c :: cs, needle => headMatches (c :: cs) needle || hasSub cs needle

/-- `msg.includes(needle)` (the tests at pages/api/lookup.js lines 179-191). -/
def strContainsSub (msg needle : String) : Bool :=
  hasSub msg.data needle.data

/-- pages/api/lookup.js lines 176-194: the status and message the catch
block computes for a thrown error. This value is never sent: before the
response line, the guard `if (apiKeyInfo?.id)` at line 197 reads
`apiKeyInfo`, a `const` scoped to the try block, so the catch block itself
throws a ReferenceError. Kept as the embedding of that dead computation. -/
def mapErrorStatus (msg : String) : Nat × String :=
  if strContainsSub msg "Invalid mobile number" then (400, "Invalid mobile number format")
  else if strContainsSub msg "Rate limit" then (429, "Rate limit exceeded")
  else if strContainsSub msg "quota" then (429, "Daily quota exceeded")
  else if strContainsSub msg "paused" then (403, "Service temporarily suspended")
  else if strContainsSub msg "expired" then (401, "Authentication failed")
  else (400, "Bad request")

/-- What actually leaves the catch block (pages/api/lookup.js lines
172-204): line 197 dereferences `apiKeyInfo`, which is not in scope there,
so every error that reaches the catch block escapes the handler as a
ReferenceError and the status computed by `mapErrorStatus` is never sent. -/
def catchOutcome (msg : String) : Outcome :=
  let _dead := mapErrorStatus msg
  Outcome.crash "ReferenceError: apiKeyInfo is not defined"

/-- The expiry test at pages/api/lookup.js line 95:
`apiKeyInfo.expires_at && new Date(apiKeyInfo.expires_at) < new Date()`. -/
def isExpired (expiresAt : Option Int) (now : Int) : Bool :=
  match expiresAt with
  | none => false
  | some t => decide (t < now)

/-- The inner catch at pages/api/lookup.js lines 127-137: log an error
usage row, then reply 503 with a fixed message and `retryAfter: 60`. A
failing usage write propagates to the outer catch. -/
def upstreamFailure (info : KeyJoin) (number : String) (ip : String)
    (ua : Option String) (env : Env) (db : DB) (evs : List Event) : HResult :=
  match logUsage info.id number env.elapsed "error" ip ua env.now db with
  | Except.error e => { outcome := catchOutcome e, db := db, events := evs }
  | Except.ok db1 =>
      { outcome := Outcome.resp 503
          (Body.errRetry "Service temporarily unavailable. Please try again later." 60),
        db := db1, events := evs ++ [Event.usageWrite] }

/-- pages/api/lookup.js lines 45-205, the whole request handler, in source
order: OPTIONS preflight; method gate; missing-parameter gate; then the
try block — number format, key fingerprint, key resolution, paused gate,
expiry gate, rate/quota check, upstream call, shape check, normalization,
quota increment, usage write, success reply. Every thrown error lands in
the catch block, which crashes (see `catchOutcome`). -/
def handler (req : Request) (env : Env) (db : DB) : HResult :=
  if req.method = "OPTIONS" then
    { outcome := Outcome.resp 200 Body.empty, db := db, events := [] }
  else if req.method ≠ "GET" then
    { outcome := Outcome.resp 405 (Body.errAllowed "Method not allowed" "GET"),
      db := db, events := [] }
  else if ¬ (strTruthy req.key && strTruthy req.number) then
    { outcome := Outcome.resp 400
        (Body.errRequired "Missing required parameters" "key and number"),
      db := db, events := [] }
  else
    let number := req.number.getD ""
    let key := req.key.getD ""
    if ¬ validMobile number then
      { outcome := catchOutcome "Invalid mobile number. Must be 10 digits starting with 6-9.",
        db := db, events := [] }
    else
      let keyHash := hashApiKey key
      match getApiKey keyHash db with
      | none =>
          { outcome := Outcome.resp 401 (Body.err "Invalid or expired API key"),
            db := db, events := [Event.hashKey, Event.keyLookup] }
      | some info =>
          if info.is_paused then
            { outcome := Outcome.resp 403 (Body.err "API key is currently paused"),
              db := db, events := [Event.hashKey, Event.keyLookup] }
          else if isExpired info.expires_at env.now then
            { outcome := Outcome.resp 401 (Body.err "API key has expired"),
              db := db, events := [Event.hashKey, Event.keyLookup] }
          else
            let ip := clientIp req
            match checkRateLimit info.id ip env.now db with
            | Except.error e =>
                { outcome := catchOutcome e, db := db,
                  events := [Event.hashKey, Event.keyLookup, Event.rateCheck] }
            | Except.ok _ =>
                let evs := [Event.hashKey, Event.keyLookup, Event.rateCheck,
                            Event.upstreamCall]
                match env.upstream with
                | Upstream.fail =>
                    upstreamFailure info number ip req.userAgent env db evs
                | Upstream.ok body =>
                    if ¬ validShape body then
                      upstreamFailure info number ip req.userAgent env db evs
                    else
                      let entries := match body with
                        | UpBody.objData es => es
                        | _ => []
                      match mapCleaned number entries with
                      | Except.error e =>
                          { outcome := catchOutcome e, db := db, events := evs }
                      | Except.ok cleaned =>
                          let db1 := incrementApiUsage info.id env.today db
                          match logUsage info.id number env.elapsed "success" ip
                              req.userAgent env.now db1 with
                          | Except.error e =>
                              { outcome := catchOutcome e, db := db1,
                                events := evs ++ [Event.quotaIncrement] }
                          | Except.ok db2 =>
                              { outcome := Outcome.resp 200
                                  (Body.ok cleaned number cleaned.length env.nowIso),
                                db := db2,
                                events := evs ++ [Event.quotaIncrement, Event.usageWrite] }

/-- The claim set of a JWT issued by lib/auth.js lines 14-23. -/
structure TokenPayload where
  userId : Nat
  username : String
  iat : Int
  exp : Int
deriving Repr, DecidableEq

/-- A signed token: payload plus signature over it. -/
structure SignedToken where
  payload : TokenPayload
  sig : String
deriving Repr, DecidableEq

/-- lib/auth.js line 9 (the fallback literal; the environment variable is
deployment configuration). -/
def JWT_SECRET : String := "your-super-secret-jwt-key-change-this"

/-- Executable stand-in for the HMAC over the payload: deterministic and
injective in (payload, secret), which is all `jwt.verify` relies on. -/
def mkSig (p : TokenPayload) (secret : String) : String :=
  "hmac(" ++ toString p.userId ++ "," ++ p.username ++ ","
    ++ toString p.iat ++ "," ++ toString p.exp ++ "," ++ secret ++ ")"

/-- lib/auth.js lines 14-23 (`generateToken`): payload with `iat = now` and
`exp = now + 24 * 60 * 60`, signed with `JWT_SECRET`. -/
def generateToken (userId : Nat) (username : String) (now : Int) : SignedToken :=
  let p : TokenPayload := { userId := userId, username := username,
                            iat := now, exp := now + 86400 }
  { payload := p, sig := mkSig p JWT_SECRET }

/-- lib/auth.js lines 28-34 (`verifyToken`): `jwt.verify` returns the
decoded payload when the signature matches and the token has not expired
(`now < exp`); any failure is returned as `none`. -/
def verifyToken (t : SignedToken) (now : Int) : Option TokenPayload :=
  if t.sig = mkSig t.payload JWT_SECRET ∧ now < t.payload.exp then
    some t.payload
  else
    none

/-- The stored session payload (lib/auth.js lines 61-66); the
JSON.stringify/JSON.parse round trip is modelled as the identity. -/
structure SessionData where
  token : SignedToken
  userId : Nat
  username : String
  createdAt : String
deriving Repr, DecidableEq

/-- The key-value session store: each key carries its value and the absolute
expiry instant its TTL denotes. -/
structure KVStore where
  entries : List (String × SessionData × Int)
deriving Repr, DecidableEq

/-- `kv.setex key ttl value`: store the value under the key with expiry
`now + ttl`, replacing any previous binding. -/
def kvSetex (kv : KVStore) (k : String) (ttl : Int) (v : SessionData)
    (now : Int) : KVStore :=
  { entries := (k, v, now + ttl) :: kv.entries.filter fun e => decide (¬ e.1 = k) }

/-- `kv.get key`: the stored value, unless the key is absent or its TTL has
elapsed. -/
def kvGet (kv : KVStore) (k : String) (now : Int) : Option SessionData :=
  (kv.entries.find? fun e => decide (e.1 = k)).bind fun e =>
    if now < e.2.2 then some e.2.1 else none

/-- `kv.expire key ttl`: reset the key's expiry to `now + ttl`. -/
def kvExpire (kv : KVStore) (k : String) (ttl : Int) (now : Int) : KVStore :=
  { entries := kv.entries.map fun e =>
      if e.1 = k then (e.1, e.2.1, now + ttl) else e }

/-- The expiry instant currently stored for a key, if any. -/
def kvExpiryOf (kv : KVStore) (k : String) : Option Int :=
  (kv.entries.find? fun e => decide (e.1 = k)).map fun e => e.2.2

/-- lib/auth.js lines 56-69 (`createSession`): generate the signed token and
store `{token, userId, username, createdAt}` under `session:<sessionId>`
with a 24-hour TTL (86400 seconds). The random `sessionId` is passed in. -/
def createSession (sessionId : String) (userId : Nat) (username : String)
    (now : Int) (nowIso : String) (kv : KVStore) : KVStore × SignedToken :=
  let token := generateToken userId username now
  (kvSetex kv ("session:" ++ sessionId) 86400
     { token := token, userId := userId, username := username, createdAt := nowIso }
     now,
   token)

/-- lib/auth.js lines 74-94 (`validateSession`): a falsy session id fails;
otherwise look up the stored record, re-verify the embedded token, and
require the decoded `userId` to equal the stored `userId`; on success
extend the store entry's TTL to 30 minutes (1800 seconds) from now and
return the decoded payload. -/
def validateSession (sessionId : Option String) (now : Int) (kv : KVStore) :
    Option TokenPayload × KVStore :=
  if ¬ strTruthy sessionId then (none, kv)
  else
    let sid := sessionId.getD ""
    match kvGet kv ("session:" ++ sid) now with
    | none => (none, kv)
    | some session =>
        match verifyToken session.token now with
        | none => (none, kv)
        | some decoded =>
            if decoded.userId = session.userId then
              (some decoded, kvExpire kv ("session:" ++ sid) 1800 now)
            else
              (none, kv)

/-- pages/api/admin/revoke-key.js lines 26-32: the single UPDATE run by the
revoke handler — `SET expires_at = NOW() - INTERVAL '1 day',
is_paused = true WHERE id = key_id`. One day is 86400 seconds. -/
def revokeKeyUpdate (keyId : Nat) (now : Int) (ks : List ApiKeyRow) :
    List ApiKeyRow :=
  ks.map fun k =>
    if k.id = keyId then
      { k with expires_at := some (now - 86400), is_paused := true }
    else k

instance {ε α : Type} [DecidableEq ε] [DecidableEq α] : DecidableEq (Except ε α)
  | Except.error x, Except.error y =>
      if h : x = y then isTrue (congrArg Except.error h)
      else isFalse fun c => h (Except.error.inj c)
  | Except.error _, Except.ok _ => isFalse Except.noConfusion
  | Except.ok _, Except.error _ => isFalse Except.noConfusion
  | Except.ok x, Except.ok y =>
      if h : x = y then isTrue (congrArg Except.ok h)
      else isFalse fun c => h (Except.ok.inj c)

/-- Whether the upstream call counts as failed for the handler: the axios
call threw, or the 2xx body fails the shape check at line 123. -/
def upstreamBad : Upstream → Bool
  | Upstream.fail => true
  | Upstream.ok b => ¬ validShape b

/-! ### Concrete fixtures used by witnesses and counterexamples -/

/-- A stored admin/owner row. -/
def aliceUser : UserRow := ⟨1, "alice", true⟩

/-- A well-formed lookup request: GET, key `k1`, a valid subject number. -/
def baseReq : Request :=
  { method := "GET", key := some "k1", number := some "9876543210",
    xForwardedFor := some "1.2.3.4", remoteAddress := none, userAgent := none }

/-- A fixed clock (second 1000000 of the epoch, calendar day 2026-10-12)
with a chosen upstream behaviour. -/
def mkEnv (up : Upstream) : Env :=
  { now := 1000000, today := "2026-10-12", nowIso := "2026-10-12T05:33:20.000Z",
    elapsed := 5, upstream := up }

/-- Key `k1`, budget 10, fully consumed on the previous calendar day. -/
def c1Key : ApiKeyRow :=
  { id := 1, key_hash := hashApiKey "k1", user_id := 1, expires_at := none,
    is_paused := false, daily_limit := 10, daily_used := 10,
    last_reset_date := "2026-10-11" }

/-- Store holding only `c1Key` and its owner; no usage yet. -/
def c1Db : DB := ⟨[c1Key], [aliceUser], [], false⟩

/-! ### C1 -/

/-- C1: the claim says the day-rollover rule is applied before the
`consumed < budget` comparison, so the first request of a new day is
admitted regardless of the stored count. The code's `checkRateLimit`
compares the stored `daily_used` to `daily_limit` without looking at
`last_reset_date`: with budget 10 consumed yesterday, today's first
request is rejected with the quota error (which then crashes the catch
block), and the stored counters are left untouched — the reset written in
`incrementApiUsage` (last conjunct) is unreachable for such a key. -/
theorem c1_new_day_request_rejected_without_rollover :
    checkRateLimit 1 (clientIp baseReq) (mkEnv (Upstream.ok (UpBody.objData []))).now c1Db
      = Except.error "Daily quota exceeded for this API key."
    ∧ (handler baseReq (mkEnv (Upstream.ok (UpBody.objData []))) c1Db).outcome
      = Outcome.crash "ReferenceError: apiKeyInfo is not defined"
    ∧ (handler baseReq (mkEnv (Upstream.ok (UpBody.objData []))) c1Db).db = c1Db
    ∧ incrementApiUsage 1 "2026-10-12" c1Db
      = { c1Db with api_keys :=
            [{ c1Key with daily_used := 1, last_reset_date := "2026-10-12" }] } := by
  decide

/-! ### C2 -/

/-- C2: for a resolved key the admission check evaluates the paused flag
first, then the expiry timestamp, then the quota: a paused key gets 403
whatever its budget or expiry, and an expired non-paused key gets 401
(never 429), whatever its remaining budget. -/
theorem c2_check_order_paused_then_expired_then_quota
    (req : Request) (env : Env) (db : DB) (info : KeyJoin)
    (hm : req.method = "GET")
    (hk : strTruthy req.key = true)
    (hn : strTruthy req.number = true)
    (hv : validMobile (req.number.getD "") = true)
    (hres : getApiKey (hashApiKey (req.key.getD "")) db = some info) :
    (info.is_paused = true →
      (handler req env db).outcome
        = Outcome.resp 403 (Body.err "API key is currently paused"))
    ∧ (info.is_paused = false → isExpired info.expires_at env.now = true →
      (handler req env db).outcome
        = Outcome.resp 401 (Body.err "API key has expired")) := by
  constructor
  · intro hp
    simp [handler, hm, hk, hn, hv, hres, hp]
  · intro hp he
    simp [handler, hm, hk, hn, hv, hres, hp, he]

/-- Paused key with untouched budget and no expiry. -/
def c2PausedKey : ApiKeyRow :=
  { id := 1, key_hash := hashApiKey "k1", user_id := 1, expires_at := none,
    is_paused := true, daily_limit := 10, daily_used := 0,
    last_reset_date := "2026-10-12" }

/-- Expired key (expiry before `mkEnv`'s clock) with remaining budget. -/
def c2ExpiredKey : ApiKeyRow :=
  { c2PausedKey with is_paused := false, expires_at := some 999 }

/-- The joined record `getApiKey` returns for `c2PausedKey`. -/
def c2PausedJoin : KeyJoin :=
  { id := 1, user_id := 1, expires_at := none, is_paused := true,
    daily_limit := 10, daily_used := 0, last_reset_date := "2026-10-12",
    username := "alice" }

/-- The joined record `getApiKey` returns for `c2ExpiredKey`. -/
def c2ExpiredJoin : KeyJoin :=
  { c2PausedJoin with is_paused := false, expires_at := some 999 }

/-- Witness for C2 at concrete stores. -/
theorem c2_check_order_witness :
    (handler baseReq (mkEnv Upstream.fail) ⟨[c2PausedKey], [aliceUser], [], false⟩).outcome
      = Outcome.resp 403 (Body.err "API key is currently paused")
    ∧ (handler baseReq (mkEnv Upstream.fail) ⟨[c2ExpiredKey], [aliceUser], [], false⟩).outcome
      = Outcome.resp 401 (Body.err "API key has expired") := by
  constructor
  · exact (c2_check_order_paused_then_expired_then_quota baseReq (mkEnv Upstream.fail)
      ⟨[c2PausedKey], [aliceUser], [], false⟩ c2PausedJoin rfl (by decide) (by decide)
      (by decide) (by decide)).1 (by decide)
  · exact (c2_check_order_paused_then_expired_then_quota baseReq (mkEnv Upstream.fail)
      ⟨[c2ExpiredKey], [aliceUser], [], false⟩ c2ExpiredJoin rfl (by decide) (by decide)
      (by decide) (by decide)).2 (by decide) (by decide)

/-! ### C3 -/

/-- A lookup request whose subject is five digits. -/
def c3Req : Request := { baseReq with number := some "12345" }

/-- C3: a malformed subject is rejected before any fingerprinting, key
lookup or quota work (no pipeline events, store untouched), as the claim
says — but the promised 400 response is never sent: the thrown validation
error reaches the catch block, whose guard dereferences the out-of-scope
`apiKeyInfo` and crashes; `mapErrorStatus` (fourth conjunct) is the 400
mapping the catch block computes and then abandons. -/
theorem c3_malformed_subject_short_circuits_then_crashes :
    (handler c3Req (mkEnv Upstream.fail) c1Db).events = []
    ∧ (handler c3Req (mkEnv Upstream.fail) c1Db).db = c1Db
    ∧ (handler c3Req (mkEnv Upstream.fail) c1Db).outcome
      = Outcome.crash "ReferenceError: apiKeyInfo is not defined"
    ∧ mapErrorStatus "Invalid mobile number. Must be 10 digits starting with 6-9."
      = (400, "Invalid mobile number format")
    ∧ validMobile "12345" = false := by
  decide

/-! ### C4 / C5 -/

/-- A healthy key: not paused, no expiry, budget 10 of which 3 used today. -/
def baseKey : ApiKeyRow :=
  { id := 1, key_hash := hashApiKey "k1", user_id := 1, expires_at := none,
    is_paused := false, daily_limit := 10, daily_used := 3,
    last_reset_date := "2026-10-12" }

/-- Store holding only `baseKey` and its owner; usage writes succeed. -/
def baseDb : DB := ⟨[baseKey], [aliceUser], [], false⟩

/-- The joined record `getApiKey` returns for `baseKey`. -/
def baseJoin : KeyJoin :=
  { id := 1, user_id := 1, expires_at := none, is_paused := false,
    daily_limit := 10, daily_used := 3, last_reset_date := "2026-10-12",
    username := "alice" }

/-- `incrementApiUsage` touches only the key counters, never the logs. -/
theorem incrementApiUsage_usage_logs (i : Nat) (t : String) (db : DB) :
    (incrementApiUsage i t db).usage_logs = db.usage_logs := by
  by_cases h : ((db.api_keys.find? fun k => decide (k.id = i)).map
      fun k => k.last_reset_date) = some t
  · simp [incrementApiUsage, h]
  · simp [incrementApiUsage, h]

/-- `incrementApiUsage` does not change the log-write failure flag. -/
theorem incrementApiUsage_logFails (i : Nat) (t : String) (db : DB) :
    (incrementApiUsage i t db).logFails = db.logFails := by
  by_cases h : ((db.api_keys.find? fun k => decide (k.id = i)).map
      fun k => k.last_reset_date) = some t
  · simp [incrementApiUsage, h]
  · simp [incrementApiUsage, h]

/-- `incrementApiUsage` does not change the user rows. -/
theorem incrementApiUsage_users (i : Nat) (t : String) (db : DB) :
    (incrementApiUsage i t db).users = db.users := by
  by_cases h : ((db.api_keys.find? fun k => decide (k.id = i)).map
      fun k => k.last_reset_date) = some t
  · simp [incrementApiUsage, h]
  · simp [incrementApiUsage, h]

/-- On a list of entries none of which is JSON null, the normalization map
succeeds and is the pointwise total projection. -/
theorem mapCleaned_eq (n : String) (entries : List Entry)
    (h : ∀ e ∈ entries, e ≠ Entry.null) :
    mapCleaned n entries = Except.ok (entries.map (cleanItemOk n)) := by
  induction entries with
  | nil => rfl
  | cons a l ih =>
      have ha : a ≠ Entry.null := h a (by simp)
      have hl : ∀ e ∈ l, e ≠ Entry.null := fun e he => h e (by simp [he])
      cases a with
      | null => exact absurd rfl ha
      | scalar => simp [mapCleaned, cleanItem, cleanItemOk, ih hl]
      | obj fs => simp [mapCleaned, cleanItem, cleanItemOk, ih hl]

/-- The usage row the handler appends for one request with the given
outcome tag. -/
def usageRowOf (info : KeyJoin) (req : Request) (env : Env) (tag : String) :
    UsageLog :=
  { api_key_id := info.id, mobile_number := req.number.getD "",
    response_time := env.elapsed, status := tag, ip_address := clientIp req,
    user_agent := req.userAgent, created_at := env.now }

/-- C4 as amended: of the exit paths on which a key was resolved, only the
upstream-failure path and the success path append a usage record (one
each, when the write itself succeeds); the paused and expired rejections
write none; a quota or rate rejection crashes without writing; and a
failure of the usage write itself escapes to the catch block and crashes
the handler instead of leaving the response unchanged. -/
theorem c4_amended_usage_write_paths
    (req : Request) (env : Env) (db : DB) (info : KeyJoin)
    (hm : req.method = "GET")
    (hk : strTruthy req.key = true)
    (hn : strTruthy req.number = true)
    (hv : validMobile (req.number.getD "") = true)
    (hres : getApiKey (hashApiKey (req.key.getD "")) db = some info) :
    (info.is_paused = true →
      (handler req env db).outcome
        = Outcome.resp 403 (Body.err "API key is currently paused")
      ∧ (handler req env db).db.usage_logs = db.usage_logs)
    ∧ (info.is_paused = false → isExpired info.expires_at env.now = true →
      (handler req env db).outcome
        = Outcome.resp 401 (Body.err "API key has expired")
      ∧ (handler req env db).db.usage_logs = db.usage_logs)
    ∧ (∀ e, info.is_paused = false → isExpired info.expires_at env.now = false →
      checkRateLimit info.id (clientIp req) env.now db = Except.error e →
      (handler req env db).outcome
        = Outcome.crash "ReferenceError: apiKeyInfo is not defined"
      ∧ (handler req env db).db.usage_logs = db.usage_logs)
    ∧ (info.is_paused = false → isExpired info.expires_at env.now = false →
      checkRateLimit info.id (clientIp req) env.now db = Except.ok () →
      upstreamBad env.upstream = true → db.logFails = false →
      (handler req env db).outcome = Outcome.resp 503
        (Body.errRetry "Service temporarily unavailable. Please try again later." 60)
      ∧ (handler req env db).db.usage_logs
        = db.usage_logs ++ [usageRowOf info req env "error"])
    ∧ (info.is_paused = false → isExpired info.expires_at env.now = false →
      checkRateLimit info.id (clientIp req) env.now db = Except.ok () →
      upstreamBad env.upstream = true → db.logFails = true →
      (handler req env db).outcome
        = Outcome.crash "ReferenceError: apiKeyInfo is not defined"
      ∧ (handler req env db).db.usage_logs = db.usage_logs)
    ∧ (∀ entries, info.is_paused = false → isExpired info.expires_at env.now = false →
      checkRateLimit info.id (clientIp req) env.now db = Except.ok () →
      env.upstream = Upstream.ok (UpBody.objData entries) →
      (∀ e ∈ entries, e ≠ Entry.null) → db.logFails = false →
      (handler req env db).db.usage_logs
        = db.usage_logs ++ [usageRowOf info req env "success"])
    ∧ (∀ entries, info.is_paused = false → isExpired info.expires_at env.now = false →
      checkRateLimit info.id (clientIp req) env.now db = Except.ok () →
      env.upstream = Upstream.ok (UpBody.objData entries) →
      (∀ e ∈ entries, e ≠ Entry.null) → db.logFails = true →
      (handler req env db).outcome
        = Outcome.crash "ReferenceError: apiKeyInfo is not defined"
      ∧ (handler req env db).db.usage_logs = db.usage_logs) := by
  refine ⟨?_, ?_, ?_, ?_, ?_, ?_, ?_⟩
  · intro hp
    constructor <;> simp [handler, hm, hk, hn, hv, hres, hp]
  · intro hp he
    constructor <;> simp [handler, hm, hk, hn, hv, hres, hp, he]
  · intro e hp he hr
    constructor <;> simp [handler, hm, hk, hn, hv, hres, hp, he, hr, catchOutcome]
  · intro hp he hr hu hl
    cases hup : env.upstream with
    | fail =>
        constructor <;>
          simp [handler, hm, hk, hn, hv, hres, hp, he, hr, hup, upstreamFailure,
            logUsage, hl, usageRowOf]
    | ok b =>
        have hb : validShape b = false := by
          rw [hup] at hu
          simpa [upstreamBad] using hu
        constructor <;>
          simp [handler, hm, hk, hn, hv, hres, hp, he, hr, hup, hb, upstreamFailure,
            logUsage, hl, usageRowOf]
  · intro hp he hr hu hl
    cases hup : env.upstream with
    | fail =>
        constructor <;>
          simp [handler, hm, hk, hn, hv, hres, hp, he, hr, hup, upstreamFailure,
            logUsage, hl, catchOutcome]
    | ok b =>
        have hb : validShape b = false := by
          rw [hup] at hu
          simpa [upstreamBad] using hu
        constructor <;>
          simp [handler, hm, hk, hn, hv, hres, hp, he, hr, hup, hb, upstreamFailure,
            logUsage, hl, catchOutcome]
  · intro entries hp he hr hup hnn hl
    simp [handler, hm, hk, hn, hv, hres, hp, he, hr, hup, validShape,
      mapCleaned_eq _ _ hnn, logUsage, incrementApiUsage_logFails, hl,
      incrementApiUsage_usage_logs, usageRowOf]
  · intro entries hp he hr hup hnn hl
    constructor <;>
      simp [handler, hm, hk, hn, hv, hres, hp, he, hr, hup, validShape,
        mapCleaned_eq _ _ hnn, logUsage, incrementApiUsage_logFails, hl,
        incrementApiUsage_usage_logs, catchOutcome]

/-- Counterexample to C4 as stated: a paused key is resolved (the lookup
event fires), the request exits with 403, and no usage record is written. -/
theorem c4_counterexample_paused_exit_writes_no_usage :
    (handler baseReq (mkEnv Upstream.fail) ⟨[c2PausedKey], [aliceUser], [], false⟩).outcome
      = Outcome.resp 403 (Body.err "API key is currently paused")
    ∧ Event.keyLookup
      ∈ (handler baseReq (mkEnv Upstream.fail) ⟨[c2PausedKey], [aliceUser], [], false⟩).events
    ∧ (handler baseReq (mkEnv Upstream.fail) ⟨[c2PausedKey], [aliceUser], [], false⟩).db.usage_logs
      = [] := by
  decide

/-- Witness for the amended C4 on the upstream-failure path. -/
theorem c4_amended_witness :
    (handler baseReq (mkEnv Upstream.fail) baseDb).outcome = Outcome.resp 503
      (Body.errRetry "Service temporarily unavailable. Please try again later." 60)
    ∧ (handler baseReq (mkEnv Upstream.fail) baseDb).db.usage_logs
      = [usageRowOf baseJoin baseReq (mkEnv Upstream.fail) "error"] := by
  exact (c4_amended_usage_write_paths baseReq (mkEnv Upstream.fail) baseDb baseJoin
    rfl (by decide) (by decide) (by decide) (by decide)).2.2.2.1
    (by decide) (by decide) (by decide) (by decide) (by decide)

/-- C5: an admitted request whose upstream call fails — timeout/non-2xx
(`Upstream.fail`) or a body that is not an object with an array `data`
field (shape check) — yields 503 with the fixed retry hint 60, appends
exactly one usage record tagged `error`, leaves every key row (hence the
consumed count) unchanged, and never reaches the quota increment; the
body is the fixed literal message, carrying no upstream detail. -/
theorem c5_upstream_failure_contract
    (req : Request) (env : Env) (db : DB) (info : KeyJoin)
    (hm : req.method = "GET")
    (hk : strTruthy req.key = true)
    (hn : strTruthy req.number = true)
    (hv : validMobile (req.number.getD "") = true)
    (hres : getApiKey (hashApiKey (req.key.getD "")) db = some info)
    (hp : info.is_paused = false)
    (he : isExpired info.expires_at env.now = false)
    (hr : checkRateLimit info.id (clientIp req) env.now db = Except.ok ())
    (hu : upstreamBad env.upstream = true)
    (hl : db.logFails = false) :
    (handler req env db).outcome = Outcome.resp 503
      (Body.errRetry "Service temporarily unavailable. Please try again later." 60)
    ∧ (handler req env db).db.usage_logs
      = db.usage_logs ++ [usageRowOf info req env "error"]
    ∧ (handler req env db).db.api_keys = db.api_keys
    ∧ Event.quotaIncrement ∉ (handler req env db).events := by
  cases hup : env.upstream with
  | fail =>
      refine ⟨?_, ?_, ?_, ?_⟩ <;>
        simp [handler, hm, hk, hn, hv, hres, hp, he, hr, hup, upstreamFailure,
          logUsage, hl, usageRowOf]
  | ok b =>
      have hb : validShape b = false := by
        rw [hup] at hu
        simpa [upstreamBad] using hu
      refine ⟨?_, ?_, ?_, ?_⟩ <;>
        simp [handler, hm, hk, hn, hv, hres, hp, he, hr, hup, hb, upstreamFailure,
          logUsage, hl, usageRowOf]

/-- Witness for C5 with a malformed (non-object) upstream body. -/
theorem c5_upstream_failure_witness :
    (handler baseReq (mkEnv (Upstream.ok UpBody.nonObj)) baseDb).outcome
      = Outcome.resp 503
        (Body.errRetry "Service temporarily unavailable. Please try again later." 60)
    ∧ (handler baseReq (mkEnv (Upstream.ok UpBody.nonObj)) baseDb).db.usage_logs
      = [usageRowOf baseJoin baseReq (mkEnv (Upstream.ok UpBody.nonObj)) "error"]
    ∧ (handler baseReq (mkEnv (Upstream.ok UpBody.nonObj)) baseDb).db.api_keys
      = baseDb.api_keys
    ∧ Event.quotaIncrement
      ∉ (handler baseReq (mkEnv (Upstream.ok UpBody.nonObj)) baseDb).events := by
  exact c5_upstream_failure_contract baseReq (mkEnv (Upstream.ok UpBody.nonObj)) baseDb
    baseJoin rfl (by decide) (by decide) (by decide) (by decide) (by decide)
    (by decide) (by decide) (by decide) (by decide)

/-! ### C6 -/

/-- C6 as amended: for a successful upstream response none of whose entries
is JSON null, each entry is projected onto exactly the fields
name/fname/mobile/alt/address/circle/id, `"N/A"` standing in for a missing
(or falsy) field except that a missing mobile is replaced by the queried
number, and the 200 body is `success/data/meta` with `meta.query` the
number and `meta.results` the entry count. (A null entry instead throws a
TypeError during the map and the handler crashes — see the
counterexample.) -/
theorem c6_amended_success_projection
    (req : Request) (env : Env) (db : DB) (info : KeyJoin) (entries : List Entry)
    (hm : req.method = "GET")
    (hk : strTruthy req.key = true)
    (hn : strTruthy req.number = true)
    (hv : validMobile (req.number.getD "") = true)
    (hres : getApiKey (hashApiKey (req.key.getD "")) db = some info)
    (hp : info.is_paused = false)
    (he : isExpired info.expires_at env.now = false)
    (hr : checkRateLimit info.id (clientIp req) env.now db = Except.ok ())
    (hup : env.upstream = Upstream.ok (UpBody.objData entries))
    (hnn : ∀ e ∈ entries, e ≠ Entry.null)
    (hl : db.logFails = false) :
    (handler req env db).outcome = Outcome.resp 200
      (Body.ok (entries.map (cleanItemOk (req.number.getD ""))) (req.number.getD "")
        entries.length env.nowIso)
    ∧ (∀ fs, entryGet fs "name" = JVal.null →
        (cleanItemOk (req.number.getD "") (Entry.obj fs)).name = JVal.str "N/A")
    ∧ (∀ fs, entryGet fs "fname" = JVal.null →
        (cleanItemOk (req.number.getD "") (Entry.obj fs)).fname = JVal.str "N/A")
    ∧ (∀ fs, entryGet fs "alt" = JVal.null →
        (cleanItemOk (req.number.getD "") (Entry.obj fs)).alt = JVal.str "N/A")
    ∧ (∀ fs, entryGet fs "address" = JVal.null →
        (cleanItemOk (req.number.getD "") (Entry.obj fs)).address = JVal.str "N/A")
    ∧ (∀ fs, entryGet fs "circle" = JVal.null →
        (cleanItemOk (req.number.getD "") (Entry.obj fs)).circle = JVal.str "N/A")
    ∧ (∀ fs, entryGet fs "id" = JVal.null →
        (cleanItemOk (req.number.getD "") (Entry.obj fs)).id = JVal.str "N/A")
    ∧ (∀ fs, entryGet fs "mobile" = JVal.null →
        (cleanItemOk (req.number.getD "") (Entry.obj fs)).mobile
          = JVal.str (req.number.getD "")) := by
  refine ⟨?_, ?_, ?_, ?_, ?_, ?_, ?_, ?_⟩
  · simp [handler, hm, hk, hn, hv, hres, hp, he, hr, hup, validShape,
      mapCleaned_eq _ _ hnn, logUsage, incrementApiUsage_logFails, hl,
      List.length_map]
  all_goals
    intro fs hmiss
    simp [cleanItemOk, hmiss, jvOr, jvTruthy]

/-- Counterexample to C6 as stated: an upstream body that passes the shape
check but whose `data` array holds a JSON null is not projected to an
`"N/A"`-filled item — reading `.name` of null throws, the outer catch
crashes, and nothing (no 200 body, no record, no increment) happens. -/
theorem c6_counterexample_null_entry_crashes :
    (handler baseReq (mkEnv (Upstream.ok (UpBody.objData [Entry.null]))) baseDb).outcome
      = Outcome.crash "ReferenceError: apiKeyInfo is not defined"
    ∧ (handler baseReq (mkEnv (Upstream.ok (UpBody.objData [Entry.null]))) baseDb).db
      = baseDb := by
  decide

/-- Witness for the amended C6: one object entry missing everything but
`name`, and one scalar entry. -/
theorem c6_amended_witness :
    (handler baseReq
      (mkEnv (Upstream.ok (UpBody.objData
        [Entry.obj [("name", JVal.str "bob")], Entry.scalar]))) baseDb).outcome
      = Outcome.resp 200 (Body.ok
          [{ name := JVal.str "bob", fname := JVal.str "N/A",
             mobile := JVal.str "9876543210", alt := JVal.str "N/A",
             address := JVal.str "N/A", circle := JVal.str "N/A",
             id := JVal.str "N/A" },
           { name := JVal.str "N/A", fname := JVal.str "N/A",
             mobile := JVal.str "9876543210", alt := JVal.str "N/A",
             address := JVal.str "N/A", circle := JVal.str "N/A",
             id := JVal.str "N/A" }]
          "9876543210" 2 (mkEnv (Upstream.ok (UpBody.objData
            [Entry.obj [("name", JVal.str "bob")], Entry.scalar]))).nowIso) := by
  exact (c6_amended_success_projection baseReq
    (mkEnv (Upstream.ok (UpBody.objData [Entry.obj [("name", JVal.str "bob")], Entry.scalar])))
    baseDb baseJoin [Entry.obj [("name", JVal.str "bob")], Entry.scalar]
    rfl (by decide) (by decide) (by decide) (by decide) (by decide) (by decide)
    (by decide) rfl (by decide) rfl).1

/-! ### C7 -/

/-- One admitted request logged at second 3599 (calendar-hour bucket 0). -/
def c7Log : UsageLog := ⟨1, "9876543210", 5, "success", "1.2.3.4", none, 3599⟩

/-- Store with `baseKey` and one hundred such log rows. -/
def c7Db : DB := ⟨[baseKey], [aliceUser], List.replicate 100 c7Log, false⟩

/-- A clock two seconds past the hour boundary (bucket 1). -/
def c7Env : Env :=
  { now := 3601, today := "2026-10-12", nowIso := "1970-01-01T01:00:01.000Z",
    elapsed := 5, upstream := Upstream.ok (UpBody.objData []) }

set_option maxRecDepth 100000 in
/-- Counterexample to C7 as stated: every one of the hundred stored records
lies in the previous fixed calendar-hour bucket, so under the claimed
reset-at-hour-boundaries policy this request would be admitted — yet the
code counts the rolling previous hour, rejects it, and the rejection
surfaces as a crash (the mapped 429 is never sent). -/
theorem c7_counterexample_bucket_boundary_does_not_reset :
    (c7Db.usage_logs.all fun l => hourBucket l.created_at != hourBucket c7Env.now)
      = true
    ∧ (handler baseReq c7Env c7Db).outcome
      = Outcome.crash "ReferenceError: apiKeyInfo is not defined"
    ∧ (handler baseReq c7Env c7Db).db = c7Db := by
  decide

/-- C7 as amended: the limiter counts usage records of the source IP with
`created_at` inside the rolling previous hour (`> now - 3600`), derived
from the audit log rather than a dedicated counter; once that count
reaches 100 the request is rejected whatever key it presents — by a
thrown rate-limit error that crashes the catch block, so no 429 response
is sent and nothing is written; below 100 the rate rejection cannot
occur. -/
theorem c7_amended_rolling_window_rate_limit
    (req : Request) (env : Env) (db : DB) (info : KeyJoin)
    (hm : req.method = "GET")
    (hk : strTruthy req.key = true)
    (hn : strTruthy req.number = true)
    (hv : validMobile (req.number.getD "") = true)
    (hres : getApiKey (hashApiKey (req.key.getD "")) db = some info)
    (hp : info.is_paused = false)
    (he : isExpired info.expires_at env.now = false)
    (hc : rateCount (clientIp req) env.now db.usage_logs ≥ 100) :
    checkRateLimit info.id (clientIp req) env.now db
      = Except.error "Rate limit exceeded. Too many requests from this IP."
    ∧ (handler req env db).outcome
      = Outcome.crash "ReferenceError: apiKeyInfo is not defined"
    ∧ (handler req env db).db = db
    ∧ (∀ dbq : DB, rateCount (clientIp req) env.now dbq.usage_logs < 100 →
        checkRateLimit info.id (clientIp req) env.now dbq
          ≠ Except.error "Rate limit exceeded. Too many requests from this IP.") := by
  have h1 : checkRateLimit info.id (clientIp req) env.now db
      = Except.error "Rate limit exceeded. Too many requests from this IP." := by
    simp [checkRateLimit, hc]
  refine ⟨h1, ?_, ?_, ?_⟩
  · simp [handler, hm, hk, hn, hv, hres, hp, he, h1, catchOutcome]
  · simp [handler, hm, hk, hn, hv, hres, hp, he, h1, catchOutcome]
  · intro dbq hlt
    have hge : ¬ rateCount (clientIp req) env.now dbq.usage_logs ≥ 100 :=
      Nat.not_le.mpr hlt
    simp only [checkRateLimit, if_neg hge]
    split
    · decide
    · split
      · decide
      · decide

set_option maxRecDepth 100000 in
/-- Witness for the amended C7 at the hundred-record store. -/
theorem c7_amended_witness :
    checkRateLimit 1 (clientIp baseReq) c7Env.now c7Db
      = Except.error "Rate limit exceeded. Too many requests from this IP."
    ∧ (handler baseReq c7Env c7Db).outcome
      = Outcome.crash "ReferenceError: apiKeyInfo is not defined" := by
  refine ⟨?_, ?_⟩
  · exact (c7_amended_rolling_window_rate_limit baseReq c7Env c7Db baseJoin
      rfl (by decide) (by decide) (by decide) (by decide) (by decide) (by decide)
      (by decide)).1
  · exact (c7_amended_rolling_window_rate_limit baseReq c7Env c7Db baseJoin
      rfl (by decide) (by decide) (by decide) (by decide) (by decide) (by decide)
      (by decide)).2.1

/-! ### C8 -/

/-- Resetting a stored key's TTL re-stamps exactly that key's expiry. -/
theorem kvExpire_expiry (kv : KVStore) (k : String) (ttl now : Int)
    (e : String × SessionData × Int)
    (hf : kv.entries.find? (fun p => decide (p.1 = k)) = some e) :
    kvExpiryOf (kvExpire kv k ttl now) k = some (now + ttl) := by
  have hpe : e.1 = k := by
    have hb := List.find?_some hf
    simpa using hb
  unfold kvExpiryOf kvExpire
  rw [List.find?_map]
  have hcomp : ((fun p => decide (p.1 = k)) ∘
      fun p : String × SessionData × Int =>
        if p.1 = k then (p.1, p.2.1, now + ttl) else p)
      = fun p : String × SessionData × Int => decide (p.1 = k) := by
    funext p
    by_cases h : p.1 = k <;> simp [h]
  rw [hcomp, hf]
  simp [hpe]

/-- C8: `createSession` stores the session under `session:<id>` with an
initial TTL of 24 hours, and `validateSession` succeeds exactly when the
stored record is found, the embedded signed token verifies, and the
token's user id matches the stored user id — in which case it slides the
store TTL to 30 minutes from now and returns the decoded payload; any
failed condition leaves the store untouched and yields nothing. -/
theorem c8_session_ttl_and_sliding_validation
    (sid : String) (uid : Nat) (uname : String) (t0 : Int) (iso : String)
    (kv kv2 : KVStore) (now : Int) (sess : SessionData) (d : TokenPayload)
    (hsid : sid ≠ "") :
    kvExpiryOf (createSession sid uid uname t0 iso kv).1 ("session:" ++ sid)
      = some (t0 + 86400)
    ∧ (kvGet kv2 ("session:" ++ sid) now = some sess →
       verifyToken sess.token now = some d → d.userId = sess.userId →
       validateSession (some sid) now kv2
         = (some d, kvExpire kv2 ("session:" ++ sid) 1800 now)
       ∧ kvExpiryOf (validateSession (some sid) now kv2).2 ("session:" ++ sid)
         = some (now + 1800))
    ∧ (kvGet kv2 ("session:" ++ sid) now = none →
       validateSession (some sid) now kv2 = (none, kv2))
    ∧ (kvGet kv2 ("session:" ++ sid) now = some sess →
       verifyToken sess.token now = none →
       validateSession (some sid) now kv2 = (none, kv2))
    ∧ (kvGet kv2 ("session:" ++ sid) now = some sess →
       verifyToken sess.token now = some d → d.userId ≠ sess.userId →
       validateSession (some sid) now kv2 = (none, kv2)) := by
  refine ⟨?_, ?_, ?_, ?_, ?_⟩
  · simp [createSession, kvSetex, kvExpiryOf]
  · intro hg hvt hid
    have hval : validateSession (some sid) now kv2
        = (some d, kvExpire kv2 ("session:" ++ sid) 1800 now) := by
      simp [validateSession, strTruthy, hsid, hg, hvt, hid]
    refine ⟨hval, ?_⟩
    obtain ⟨e, hfind⟩ : ∃ e, kv2.entries.find?
        (fun p => decide (p.1 = "session:" ++ sid)) = some e := by
      cases hfe : kv2.entries.find? (fun p => decide (p.1 = "session:" ++ sid)) with
      | none => simp [kvGet, hfe] at hg
      | some e => exact ⟨e, rfl⟩
    rw [hval]
    exact kvExpire_expiry kv2 ("session:" ++ sid) 1800 now e hfind
  · intro hg
    simp [validateSession, strTruthy, hsid, hg]
  · intro hg hvt
    simp [validateSession, strTruthy, hsid, hg, hvt]
  · intro hg hvt hid
    simp [validateSession, strTruthy, hsid, hg, hvt, hid]

/-- The record `createSession` stores for user 7 at second 500. -/
def c8Sess : SessionData :=
  { token := generateToken 7 "alice" 500, userId := 7, username := "alice",
    createdAt := "iso" }

/-- The session store after that creation. -/
def c8Kv : KVStore := (createSession "s1" 7 "alice" 500 "iso" ⟨[]⟩).1

/-- Witness for C8: create at second 500 (expiry 86900), validate at second
600, observe the slide to 2400. -/
theorem c8_session_witness :
    kvExpiryOf c8Kv ("session:" ++ "s1") = some (500 + 86400)
    ∧ validateSession (some "s1") 600 c8Kv
      = (some (generateToken 7 "alice" 500).payload,
         kvExpire c8Kv ("session:" ++ "s1") 1800 600)
    ∧ kvExpiryOf (validateSession (some "s1") 600 c8Kv).2 ("session:" ++ "s1")
      = some (600 + 1800) := by
  have h := c8_session_ttl_and_sliding_validation "s1" 7 "alice" 500 "iso"
    ⟨[]⟩ c8Kv 600 c8Sess (generateToken 7 "alice" 500).payload (by decide)
  have hpos := h.2.1 (by decide) (by decide) (by decide)
  exact ⟨h.1, hpos.1, hpos.2⟩

/-! ### C9 -/

/-- Any key row the revoke UPDATE matched is left paused with its expiry a
day in the past. -/
theorem revokeKeyUpdate_mem (ks : List ApiKeyRow) (keyId : Nat) (t now : Int)
    (k : ApiKeyRow) (hk : k ∈ revokeKeyUpdate keyId t ks) (hid : k.id = keyId) :
    k.is_paused = true ∧ k.expires_at = some (t - 86400)
    ∧ (t ≤ now → isExpired k.expires_at now = true) := by
  obtain ⟨a, ha, hfa⟩ := List.mem_map.mp hk
  by_cases h : a.id = keyId
  · rw [if_pos h] at hfa
    subst hfa
    refine ⟨rfl, rfl, ?_⟩
    intro hle
    simp only [isExpired, decide_eq_true_eq]
    omega
  · rw [if_neg h] at hfa
    subst hfa
    exact absurd hid h

/-- C9: revoking sets the expiry one day into the past and the paused flag
in the same single update; revoke is idempotent — running it again at the
same instant is a no-op, and running it again later leaves the key in the
same revoked state (paused, expiry in the past) — and no row is removed
(the row count and the id column are preserved). -/
theorem c9_revoke_soft_delete
    (ks : List ApiKeyRow) (keyId : Nat) (t1 t2 now : Int) (k : ApiKeyRow) :
    revokeKeyUpdate keyId t1 (revokeKeyUpdate keyId t1 ks) = revokeKeyUpdate keyId t1 ks
    ∧ (revokeKeyUpdate keyId t1 ks).length = ks.length
    ∧ (revokeKeyUpdate keyId t1 ks).map (fun r => r.id) = ks.map (fun r => r.id)
    ∧ (k ∈ revokeKeyUpdate keyId t1 ks → k.id = keyId →
        k.is_paused = true ∧ k.expires_at = some (t1 - 86400)
        ∧ (t1 ≤ now → isExpired k.expires_at now = true))
    ∧ (k ∈ revokeKeyUpdate keyId t2 (revokeKeyUpdate keyId t1 ks) → k.id = keyId →
        k.is_paused = true ∧ k.expires_at = some (t2 - 86400)
        ∧ (t2 ≤ now → isExpired k.expires_at now = true)) := by
  refine ⟨?_, ?_, ?_, ?_, ?_⟩
  · induction ks with
    | nil => rfl
    | cons a l ih =>
        simp only [revokeKeyUpdate, List.map_cons] at ih ⊢
        by_cases h : a.id = keyId
        · simp [h, ih]
        · simp [h, ih]
  · simp [revokeKeyUpdate]
  · rw [revokeKeyUpdate, List.map_map]
    have hcomp : ((fun r : ApiKeyRow => r.id) ∘ fun k : ApiKeyRow =>
        if k.id = keyId then { k with expires_at := some (t1 - 86400), is_paused := true }
        else k) = fun r : ApiKeyRow => r.id := by
      funext a
      by_cases h : a.id = keyId <;> simp [h]
    rw [hcomp]
  · exact revokeKeyUpdate_mem ks keyId t1 now k
  · exact revokeKeyUpdate_mem (revokeKeyUpdate keyId t1 ks) keyId t2 now k

/-- Witness for C9 on a one-key store, revoked at second 1000 and again at
second 2000. -/
theorem c9_revoke_witness :
    revokeKeyUpdate 1 1000 (revokeKeyUpdate 1 1000 [c1Key]) = revokeKeyUpdate 1 1000 [c1Key]
    ∧ ({ c1Key with expires_at := some (1000 - 86400), is_paused := true }
        : ApiKeyRow).is_paused = true
    ∧ ({ c1Key with expires_at := some (1000 - 86400), is_paused := true }
        : ApiKeyRow).expires_at = some (1000 - 86400)
    ∧ isExpired ({ c1Key with expires_at := some (1000 - 86400), is_paused := true }
        : ApiKeyRow).expires_at 2000 = true := by
  have h := c9_revoke_soft_delete [c1Key] 1 1000 2000 2000
    { c1Key with expires_at := some (1000 - 86400), is_paused := true }
  have hm := h.2.2.2.1 (by decide) (by decide)
  exact ⟨h.1, hm.1, hm.2.1, hm.2.2 (by decide)⟩

/-! ### C10 -/

/-- Flip the `is_active` flag of one user row, leaving everything else of
the store untouched. -/
def setUserActive (uid : Nat) (b : Bool) (db : DB) : DB :=
  { db with users := db.users.map fun u =>
      if u.id = uid then { u with is_active := b } else u }

/-- Flipping `is_active` preserves a user row's id. -/
theorem setActive_id (uid : Nat) (b : Bool) (u : UserRow) :
    ((if u.id = uid then { u with is_active := b } else u) : UserRow).id = u.id := by
  by_cases h : u.id = uid <;> simp [h]

/-- Flipping `is_active` preserves a user row's username. -/
theorem setActive_username (uid : Nat) (b : Bool) (u : UserRow) :
    ((if u.id = uid then { u with is_active := b } else u) : UserRow).username
      = u.username := by
  by_cases h : u.id = uid <;> simp [h]

/-- Key resolution reads the user rows only through their id (join
condition) and username (projected column), so it cannot see `is_active`. -/
theorem getApiKey_setUserActive (h : String) (uid : Nat) (b : Bool) (db : DB) :
    getApiKey h (setUserActive uid b db) = getApiKey h db := by
  unfold getApiKey setUserActive
  simp only [List.any_map, List.find?_map, Option.map_map, Function.comp_def,
    setActive_id, setActive_username]

/-- `checkRateLimit` never reads the user rows. -/
theorem checkRateLimit_setUserActive (i : Nat) (p : String) (n : Int)
    (uid : Nat) (b : Bool) (db : DB) :
    checkRateLimit i p n (setUserActive uid b db) = checkRateLimit i p n db := rfl

/-- `incrementApiUsage` commutes with flipping a user's `is_active`. -/
theorem incrementApiUsage_setUserActive (i : Nat) (t : String) (uid : Nat)
    (b : Bool) (db : DB) :
    incrementApiUsage i t (setUserActive uid b db)
      = setUserActive uid b (incrementApiUsage i t db) := by
  by_cases h : ((db.api_keys.find? fun k => decide (k.id = i)).map
      fun k => k.last_reset_date) = some t
  · simp [incrementApiUsage, setUserActive, h]
  · simp [incrementApiUsage, setUserActive, h]

/-- The upstream-failure exit commutes with flipping a user's `is_active`. -/
theorem upstreamFailure_setUserActive (info : KeyJoin) (number ip : String)
    (ua : Option String) (env : Env) (uid : Nat) (b : Bool) (db : DB)
    (evs : List Event) :
    upstreamFailure info number ip ua env (setUserActive uid b db) evs
      = { outcome := (upstreamFailure info number ip ua env db evs).outcome,
          db := setUserActive uid b (upstreamFailure info number ip ua env db evs).db,
          events := (upstreamFailure info number ip ua env db evs).events } := by
  by_cases hlf : db.logFails
  · simp [upstreamFailure, logUsage, setUserActive, hlf]
  · simp [upstreamFailure, logUsage, setUserActive, hlf]

/-- The whole handler is insensitive to `is_active`: its outcome and events
are unchanged, and the store it leaves behind is the store it would have
left anyway, with the same user flag flipped. -/
theorem handler_setUserActive (req : Request) (env : Env) (uid : Nat)
    (b : Bool) (db : DB) :
    handler req env (setUserActive uid b db)
      = { outcome := (handler req env db).outcome,
          db := setUserActive uid b (handler req env db).db,
          events := (handler req env db).events } := by
  simp only [handler, getApiKey_setUserActive, checkRateLimit_setUserActive,
    incrementApiUsage_setUserActive]
  by_cases h1 : req.method = "OPTIONS"
  · simp [h1]
  by_cases h2 : req.method = "GET"
  case neg => simp [h1, h2]
  by_cases h3 : (strTruthy req.key && strTruthy req.number) = true
  case neg => simp [h1, h2, h3]
  by_cases h4 : validMobile (req.number.getD "") = true
  case neg => simp [h1, h2, h3, h4]
  simp only [h1, h2, h3, h4, if_false, if_true, ite_true, ite_false,
    not_true, not_false_iff, Bool.not_eq_true]
  cases hgk : getApiKey (hashApiKey (req.key.getD "")) db with
  | none => simp [h1, h2, h3, h4, hgk]
  | some info =>
      by_cases h5 : info.is_paused
      · simp [h1, h2, h3, h4, hgk, h5]
      by_cases h6 : isExpired info.expires_at env.now
      · simp [h1, h2, h3, h4, hgk, h5, h6]
      simp only [h1, h2, h3, h4, hgk, h5, h6]
      cases hcr : checkRateLimit info.id (clientIp req) env.now db with
      | error e => simp [h1, h2, h3, h4, hgk, h5, h6, hcr]
      | ok u =>
          cases hup : env.upstream with
          | fail =>
              simp [h1, h2, h3, h4, hgk, h5, h6, hcr, hup,
                upstreamFailure_setUserActive]
          | ok body =>
              by_cases h7 : validShape body = true
              case neg =>
                simp [h1, h2, h3, h4, hgk, h5, h6, hcr, hup, h7,
                  upstreamFailure_setUserActive]
              cases body with
              | nonObj => simp [validShape] at h7
              | objNoData => simp [validShape] at h7
              | objData es =>
                  cases hmc : mapCleaned (req.number.getD "") es with
                  | error e =>
                      simp [h1, h2, h3, h4, hgk, h5, h6, hcr, hup, h7, hmc]
                  | ok cleaned =>
                      by_cases hlf : db.logFails
                      · simp [h1, h2, h3, h4, hgk, h5, h6, hcr, hup, h7, hmc,
                          logUsage, setUserActive, incrementApiUsage_logFails, hlf]
                      · simp [h1, h2, h3, h4, hgk, h5, h6, hcr, hup, h7, hmc,
                          logUsage, setUserActive, incrementApiUsage_logFails, hlf]

/-- C10: key resolution requires only that the owning user row exists,
never that it is active — a key owned by a deactivated user still
resolves, and the lookup pipeline behaves identically: same resolution,
same outcome, same pipeline events, same key rows and same usage records
afterwards, whatever `is_active` is set to. -/
theorem c10_resolution_ignores_user_active
    (req : Request) (env : Env) (db : DB) (uid : Nat) (b : Bool) (h : String) :
    getApiKey h (setUserActive uid b db) = getApiKey h db
    ∧ (handler req env (setUserActive uid b db)).outcome
      = (handler req env db).outcome
    ∧ (handler req env (setUserActive uid b db)).events
      = (handler req env db).events
    ∧ (handler req env (setUserActive uid b db)).db.api_keys
      = (handler req env db).db.api_keys
    ∧ (handler req env (setUserActive uid b db)).db.usage_logs
      = (handler req env db).db.usage_logs := by
  refine ⟨getApiKey_setUserActive h uid b db, ?_, ?_, ?_, ?_⟩ <;>
    rw [handler_setUserActive] <;> rfl

end Gateway
